import Mathlib

/-!
# Verification of the Savo LLM server chat-turn pipeline

Shallow embedding of the deterministic core of the `llm_server` application:
the intent classifier (`app/core/intent.py`), text sanitizer and reply
clamping (`app/core/safety.py`), the JSON-suffix response parser and the
combination step of `run_pipeline` (`app/core/pipeline.py`), the tiered
generation orchestrator (`app/core/generate.py`, `app/providers/tier3_pi.py`)
and the file-backed session store (`app/runtime_state/sessions.py`).

Python strings are embedded as `List Char`.  Python-specific operations
(`str.find`, `str.split`, `str.strip`, truthiness, `dict.get`) are given
explicit executable definitions that mirror CPython semantics on the ASCII
inputs the server handles.
-/

/-- ASCII/latin whitespace recognised by Python's `str.split()` / `str.strip()`
(space, tab, newline, carriage return, vertical tab, form feed). -/
def pyIsSpace (c : Char) : Bool :=
  c = ' ' || c = '\t' || c = '\n' || c = '\r' || c = '\x0b' || c = '\x0c'

/-- `str.lower()` restricted to ASCII letters (the keyword catalogs and all
robot-facing text are ASCII). -/
def pyToLower (c : Char) : Char :=
  if 'A' ≤ c ∧ c ≤ 'Z' then Char.ofNat (c.toNat + 32) else c

/-- Drop elements satisfying `p` from the end of a list (Python `rstrip`). -/
def dropWhileEnd (p : Char → Bool) (s : List Char) : List Char :=
  (s.reverse.dropWhile p).reverse

/-- Python `str.strip()` (no argument): remove whitespace from both ends. -/
def pyStripWs (s : List Char) : List Char :=
  dropWhileEnd pyIsSpace (s.dropWhile pyIsSpace)

/-- Python `str.strip(chars)`: remove any of `chars` from both ends. -/
def pyStripChars (chars : List Char) (s : List Char) : List Char :=
  ((s.dropWhile (chars.contains ·)).reverse.dropWhile (chars.contains ·)).reverse

/-- Worker for `pySplit`: accumulates the current word in reverse. -/
def wordsAux : List Char → List Char → List (List Char)
  | [], acc => if acc.isEmpty then [] else [acc.reverse]
  | c :: cs, acc =>
    if pyIsSpace c then
      if acc.isEmpty then wordsAux cs [] else acc.reverse :: wordsAux cs []
    else wordsAux cs (c :: acc)

/-- Python `str.split()` with no separator: split on runs of whitespace,
discarding empty fields. -/
def pySplit (s : List Char) : List (List Char) :=
  wordsAux s []

/-- Python `haystack.find(needle)`: index of the first occurrence of
`needle` as a contiguous substring, `none` when absent (Python's `-1`). -/
def pyFind : List Char → List Char → Option Nat
  | [], needle => if needle.isEmpty then some 0 else none
  | hay@(_ :: t), needle =>
    if needle.isPrefixOf hay then some 0
    else (pyFind t needle).map (· + 1)

/-- Python `needle in haystack` (substring containment). -/
def pyContains (hay needle : List Char) : Bool :=
  (pyFind hay needle).isSome

/-- Python `haystack.rfind(single-char)`: index of the last occurrence. -/
def pyRfindAux : List Char → Char → Nat → Option Nat
  | [], _, _ => none
  | x :: xs, c, i =>
    match pyRfindAux xs c (i + 1) with
    | some j => some j
    | none => if x = c then some i else none

/-- Python `haystack.rfind(c)` over the whole string. -/
def pyRfind (s : List Char) (c : Char) : Option Nat :=
  pyRfindAux s c 0

/-- Truthiness of a Python `Optional[str]`: `None` and `""` are falsy. -/
def optStrTruthy : Option (List Char) → Bool
  | none => false
  | some s => !s.isEmpty

-- ---------------------------------------------------------------------------
-- app/core/intent.py
-- ---------------------------------------------------------------------------

/-- The closed intent label set `IntentType` of `app/core/intent.py`
(`Literal["STOP", "FOLLOW", "NAVIGATE", "STATUS", "CHATBOT"]`). -/
inductive Intent
  | STOP
  | FOLLOW
  | NAVIGATE
  | STATUS
  | CHATBOT
deriving DecidableEq, Repr

/-- `STOP_KEYWORDS` from `app/core/intent.py`. -/
def STOP_KEYWORDS : List (List Char) :=
  ["stop", "stop now", "stop please", "please stop", "can you stop",
   "halt", "freeze", "wait here", "wait there", "stay here", "stay there",
   "stay still", "stay right there",
   "do not move", "don't move", "do not go", "don't go",
   "do not follow", "don't follow"].map String.toList

/-- `FOLLOW_KEYWORDS` from `app/core/intent.py`. -/
def FOLLOW_KEYWORDS : List (List Char) :=
  ["follow me", "follow my", "follow us", "come with me", "come with us",
   "come with", "come here", "come behind me", "come behind us",
   "walk with me", "walk behind me", "stay with me",
   "stay close to me"].map String.toList

/-- `NAVIGATE_KEYWORDS` from `app/core/intent.py`. -/
def NAVIGATE_KEYWORDS : List (List Char) :=
  ["take me to", "take me", "can you take me", "can u take me",
   "bring me to", "bring me", "can you bring me", "can u bring me",
   "guide me to", "guide me", "can you guide", "can u guide",
   "show me the way", "show me where", "show me",
   "i need to go", "i need go", "i want to go", "i want go",
   "help me find", "help us find",
   "go to", "go with me to", "take us to", "take us",
   "where is", "where's", "how do i get to", "how can i get to"].map String.toList

/-- `STATUS_KEYWORDS` from `app/core/intent.py`. -/
def STATUS_KEYWORDS : List (List Char) :=
  ["why did you stop", "why you stop", "why you stopped",
   "why are you stopped", "why did u stop", "why you not moving",
   "why you not move", "why you are not moving", "why you are not moving?",
   "are you ok", "are you okay", "are you fine", "are you broken",
   "are you damaged",
   "what are you doing", "what are you doing?",
   "what are you doing right now", "what is happening", "what is going on",
   "what is your status", "tell me status", "status please",
   "what is your battery", "battery level", "battery status",
   "how much battery", "how much battery you have", "battery percent",
   "battery percentage",
   "temperature", "what is your temperature", "are you hot",
   "are you overheating"].map String.toList

/-- `normalize` from `app/core/intent.py`: lowercase, strip, and collapse
whitespace runs to single spaces (`" ".join(text.lower().strip().split())`). -/
def normalize_text (s : List Char) : List Char :=
  List.intercalate [' '] (pySplit (pyStripWs (s.map pyToLower)))

/-- `_contains_any` from `app/core/intent.py`: does any keyword occur as a
substring of the (already normalized) text? -/
def containsAny (t : List Char) (keywords : List (List Char)) : Bool :=
  keywords.any (fun k => pyContains t k)

/-- `classify_intent` from `app/core/intent.py`, on string input: empty or
whitespace-only text is CHATBOT; otherwise the first matching category in
the fixed priority order STOP, FOLLOW, NAVIGATE, STATUS wins, with CHATBOT
as the fallback. -/
def classify_intent (user_text : List Char) : Intent :=
  if pyStripWs user_text = [] then Intent.CHATBOT
  else
    let t := normalize_text user_text
    if containsAny t STOP_KEYWORDS then Intent.STOP
    else if containsAny t FOLLOW_KEYWORDS then Intent.FOLLOW
    else if containsAny t NAVIGATE_KEYWORDS then Intent.NAVIGATE
    else if containsAny t STATUS_KEYWORDS then Intent.STATUS
    else Intent.CHATBOT

/-- A dynamically-typed Python value at the `classify_intent` boundary:
either a `str` or some non-string value (int, None, bool, list, ...). -/
inductive PyValue
  | str (s : List Char)
  | int (n : Int)
  | pyNone
  | bool (b : Bool)
  | list (xs : List Int)
deriving DecidableEq

/-- The exception classes the classifier can raise. -/
inductive PyError
  | typeError
deriving DecidableEq

/-- `classify_intent` including its `isinstance(user_text, str)` guard:
non-string input raises `TypeError("Input must be a string")`. -/
def classify_intent_dyn : PyValue → Except PyError Intent
  | PyValue.str s => Except.ok (classify_intent s)
  | _ => Except.error PyError.typeError

/-- `is_nav_intent` from `app/core/intent.py`:
`intent in ("FOLLOW", "NAVIGATE")`. -/
def is_nav_intent (intent : Intent) : Bool :=
  intent = Intent.FOLLOW || intent = Intent.NAVIGATE

/-- The `stop_words` list of `_extract_after_keywords`. -/
def extractStopWords : List (List Char) :=
  ["please", "now", "thanks", "thank you"].map String.toList

/-- The `fillers` list of `_extract_after_keywords`. -/
def extractFillers : List (List Char) :=
  ["the", "room", "to", "our", "my", "me", "us"].map String.toList

/-- The sequential stop-word cutting loop of `_extract_after_keywords`:
for each politeness word in order, cut the text at its first occurrence
and strip the remainder. -/
def cutAtStopWords (after : List Char) : List Char :=
  extractStopWords.foldl
    (fun acc stopper =>
      match pyFind acc stopper with
      | some cutIdx => pyStripWs (acc.take cutIdx)
      | none => acc)
    after

/-- `_extract_after_keywords` from `app/core/intent.py`: for the first
trigger found in the text, take the substring after it, cut at politeness
words, drop leading filler words, cap to 4 words, strip edge punctuation;
fall through to the next trigger when the remainder is empty. -/
def extractAfterKeywords (t : List Char) : List (List Char) → Option (List Char)
  | [] => none
  | trig :: rest =>
    match pyFind t trig with
    | none => extractAfterKeywords t rest
    | some idx =>
      let after := pyStripWs (t.drop (idx + trig.length))
      let after := cutAtStopWords after
      let tokens := (pySplit after).dropWhile (fun w => extractFillers.contains w)
      if tokens.isEmpty then extractAfterKeywords t rest
      else
        let candidate := List.intercalate [' '] tokens
        let ctoks := pySplit candidate
        let candidate :=
          if ctoks.length > 4 then List.intercalate [' '] (ctoks.take 4)
          else candidate
        let candidate := pyStripChars ",.?!:;".toList candidate
        if candidate.isEmpty then extractAfterKeywords t rest
        else some candidate

/-- The `trigger_phrases` list of `extract_nav_goal`. -/
def triggerPhrases : List (List Char) :=
  ["take me to", "can you take me to", "can u take me to",
   "bring me to", "can you bring me to",
   "guide me to", "can you guide me to",
   "go to", "i need to go to", "i want to go to",
   "i need to go", "i want to go",
   "help me find", "help us find",
   "show me the way to", "show me the way", "show me where",
   "where is", "where's",
   "how do i get to", "how can i get to"].map String.toList

/-- `extract_nav_goal` from `app/core/intent.py` on string input. -/
def extract_nav_goal (user_text : List Char) : Option (List Char) :=
  if pyStripWs user_text = [] then none
  else extractAfterKeywords (normalize_text user_text) triggerPhrases

-- ---------------------------------------------------------------------------
-- app/core/safety.py
-- ---------------------------------------------------------------------------

/-- `MAX_USER_CHARS` from `app/core/safety.py`. -/
def MAX_USER_CHARS : Nat := 512

/-- The control-character class `[\x00-\x08\x0b\x0c\x0e-\x1f\x7f]` removed by
`sanitize_user_text`. -/
def isCtrlChar (c : Char) : Bool :=
  c.toNat ≤ 0x08 || c.toNat = 0x0b || c.toNat = 0x0c ||
  (0x0e ≤ c.toNat && c.toNat ≤ 0x1f) || c.toNat = 0x7f

/-- `SanitizedTextResult` from `app/core/safety.py`. -/
structure SanitizedTextResult where
  original : List Char
  sanitized : List Char
  truncated : Bool
  too_short : Bool
deriving DecidableEq, Repr

/-- `sanitize_user_text` from `app/core/safety.py` on string input: strip
control characters, collapse whitespace, truncate to `MAX_USER_CHARS`,
final trim, and flag truncation/emptiness. -/
def sanitize_user_text (raw_text : List Char) : SanitizedTextResult :=
  let original := raw_text
  let cleaned := original.filter (fun c => !isCtrlChar c)
  let cleaned := List.intercalate [' '] (pySplit cleaned)
  let truncated := cleaned.length > MAX_USER_CHARS
  let cleaned := if cleaned.length > MAX_USER_CHARS then cleaned.take MAX_USER_CHARS else cleaned
  let sanitized := pyStripWs cleaned
  { original := original
    sanitized := sanitized
    truncated := truncated
    too_short := sanitized.length = 0 }

/-- The reply length cap used by `clamp_reply_text`:
`getattr(settings, "max_reply_chars", 512)`.  The `Settings` model in
`app/core/config.py` defines no `max_reply_chars` field, so the `getattr`
default of 512 is in effect. -/
def max_reply_chars : Int := 512

/-- `clamp_reply_text` from `app/core/safety.py` on string input, with the
length limit made an explicit parameter: non-positive limit yields the
empty string; text at or under the limit is returned unchanged; longer
text is cut to `limit - 3` characters, right-stripped, and `"..."` is
appended (or hard-cut to `limit` when `limit ≤ 3`). -/
def clamp_reply_text (limit : Int) (text : List Char) : List Char :=
  if limit ≤ 0 then []
  else if (text.length : Int) ≤ limit then text
  else if limit > 3 then
    dropWhileEnd pyIsSpace (text.take (limit - 3).toNat) ++ "...".toList
  else text.take limit.toNat

-- ---------------------------------------------------------------------------
-- JSON values and `json.loads` (used by pipeline._extract_final_json_block)
-- ---------------------------------------------------------------------------

/-- A decoded JSON value.  JSON `null` maps to Python `None`, objects to
dicts (association list in document order, later duplicates shadowing
earlier ones exactly as `dict.get` sees them).  Numbers keep their source
characters; no claim in this development inspects a numeric value. -/
inductive Json
  | null
  | bool (b : Bool)
  | num (raw : List Char)
  | str (s : List Char)
  | arr (xs : List Json)
  | obj (kvs : List (List Char × Json))
deriving Repr

/-- JSON insignificant whitespace (RFC 8259 / CPython `json`). -/
def jsonWs (c : Char) : Bool :=
  c = ' ' || c = '\t' || c = '\n' || c = '\r'

/-- Skip JSON whitespace. -/
def jskipWs (s : List Char) : List Char :=
  s.dropWhile jsonWs

/-- Hex digit value for `\uXXXX` escapes. -/
def hexVal (c : Char) : Option Nat :=
  if '0' ≤ c ∧ c ≤ '9' then some (c.toNat - '0'.toNat)
  else if 'a' ≤ c ∧ c ≤ 'f' then some (c.toNat - 'a'.toNat + 10)
  else if 'A' ≤ c ∧ c ≤ 'F' then some (c.toNat - 'A'.toNat + 10)
  else none

/-- Parse the body of a JSON string after the opening quote; returns the
decoded characters and the remaining input after the closing quote.
Strict mode as in CPython: unescaped control characters are rejected. -/
def jparseStrBody : Nat → List Char → Option (List Char × List Char)
  | 0, _ => none
  | _ + 1, [] => none
  | fuel + 1, c :: rest =>
    if c = '"' then some ([], rest)
    else if c = '\\' then
      match rest with
      | [] => none
      | e :: rest2 =>
        let simpleEsc : Option Char :=
          if e = '"' then some '"'
          else if e = '\\' then some '\\'
          else if e = '/' then some '/'
          else if e = 'n' then some '\n'
          else if e = 't' then some '\t'
          else if e = 'r' then some '\r'
          else if e = 'b' then some '\x08'
          else if e = 'f' then some '\x0c'
          else none
        match simpleEsc with
        | some d =>
          (jparseStrBody fuel rest2).map (fun p => (d :: p.1, p.2))
        | none =>
          if e = 'u' then
            match rest2 with
            | h1 :: h2 :: h3 :: h4 :: rest3 =>
              match hexVal h1, hexVal h2, hexVal h3, hexVal h4 with
              | some a, some b, some c2, some d =>
                let n := ((a * 16 + b) * 16 + c2) * 16 + d
                (jparseStrBody fuel rest3).map
                  (fun p => (Char.ofNat n :: p.1, p.2))
              | _, _, _, _ => none
            | _ => none
          else none
    else if c.toNat < 0x20 then none
    else (jparseStrBody fuel rest).map (fun p => (c :: p.1, p.2))

/-- Characters that may occur in a JSON number token. -/
def jsonNumChar (c : Char) : Bool :=
  ('0' ≤ c ∧ c ≤ '9') || c = '-' || c = '+' || c = '.' || c = 'e' || c = 'E'

/-- Parse a JSON number token: the maximal run of number characters,
starting with a digit or `-`.  (The full RFC grammar distinguishes a few
malformed tokens, e.g. leading zeros, that CPython rejects; no claim
depends on a malformed-number input.) -/
def jparseNum (s : List Char) : Option (List Char × List Char) :=
  match s with
  | [] => none
  | c :: _ =>
    if ('0' ≤ c ∧ c ≤ '9') ∨ c = '-' then
      some (s.takeWhile jsonNumChar, s.dropWhile jsonNumChar)
    else none

mutual

/-- Parse one JSON value (fuel-bounded recursion). -/
def jparseVal : Nat → List Char → Option (Json × List Char)
  | 0, _ => none
  | fuel + 1, s =>
    match jskipWs s with
    | [] => none
    | c :: rest =>
      if c = '{' then
        match jskipWs rest with
        | '}' :: rest2 => some (Json.obj [], rest2)
        | _ => jparseObjRest fuel (jskipWs rest) []
      else if c = '[' then
        match jskipWs rest with
        | ']' :: rest2 => some (Json.arr [], rest2)
        | _ => jparseArrRest fuel (jskipWs rest) []
      else if c = '"' then
        (jparseStrBody (rest.length + 1) rest).map
          (fun p => (Json.str p.1, p.2))
      else if "true".toList.isPrefixOf (c :: rest) then
        some (Json.bool true, (c :: rest).drop 4)
      else if "false".toList.isPrefixOf (c :: rest) then
        some (Json.bool false, (c :: rest).drop 5)
      else if "null".toList.isPrefixOf (c :: rest) then
        some (Json.null, (c :: rest).drop 4)
      else
        (jparseNum (c :: rest)).map (fun p => (Json.num p.1, p.2))

/-- Parse the members of a JSON object after `{` (at least one member). -/
def jparseObjRest : Nat → List Char → List (List Char × Json) →
    Option (Json × List Char)
  | 0, _, _ => none
  | fuel + 1, s, acc =>
    match jskipWs s with
    | '"' :: rest =>
      match jparseStrBody (rest.length + 1) rest with
      | none => none
      | some (key, rest2) =>
        match jskipWs rest2 with
        | ':' :: rest3 =>
          match jparseVal fuel rest3 with
          | none => none
          | some (v, rest4) =>
            match jskipWs rest4 with
            | ',' :: rest5 => jparseObjRest fuel rest5 (acc ++ [(key, v)])
            | '}' :: rest5 => some (Json.obj (acc ++ [(key, v)]), rest5)
            | _ => none
        | _ => none
    | _ => none

/-- Parse the elements of a JSON array after `[` (at least one element). -/
def jparseArrRest : Nat → List Char → List Json → Option (Json × List Char)
  | 0, _, _ => none
  | fuel + 1, s, acc =>
    match jparseVal fuel s with
    | none => none
    | some (v, rest) =>
      match jskipWs rest with
      | ',' :: rest2 => jparseArrRest fuel rest2 (acc ++ [v])
      | ']' :: rest2 => some (Json.arr (acc ++ [v]), rest2)
      | _ => none

end

/-- `json.loads`: parse a complete JSON document, rejecting trailing
garbage.  Returns `none` where CPython raises `JSONDecodeError`. -/
def json_loads (s : List Char) : Option Json :=
  match jparseVal (4 * s.length + 16) s with
  | none => none
  | some (v, rest) => if (jskipWs rest).isEmpty then some v else none

/-- Python `dict.get`: the last binding of a duplicated key wins, absent
keys give `None`.  (Generic in the value type: used both for decoded JSON
objects and for the sessions dict.) -/
def dictGet {α : Type} (kvs : List (List Char × α)) (k : List Char) : Option α :=
  ((kvs.filter (fun kv => kv.1 = k)).getLast?).map (·.2)

/-- `dict.get` with JSON `null` collapsed to Python `None` (CPython decodes
`null` as `None`, so a null value and an absent key are indistinguishable
to the pipeline). -/
def pyGetVal (kvs : List (List Char × Json)) (k : List Char) : Option Json :=
  match dictGet kvs k with
  | some Json.null => none
  | v => v

/-- Python truthiness of a decoded JSON value. -/
def jsonTruthy : Json → Bool
  | Json.null => false
  | Json.bool b => b
  | Json.num raw => raw.any (fun c => '1' ≤ c ∧ c ≤ '9')
  | Json.str s => !s.isEmpty
  | Json.arr xs => !xs.isEmpty
  | Json.obj kvs => !kvs.isEmpty

/-- Python truthiness of an optional decoded value (`None` is falsy). -/
def optTruthy : Option Json → Bool
  | none => false
  | some j => jsonTruthy j

-- ---------------------------------------------------------------------------
-- app/core/pipeline.py — JSON extraction and the deterministic combine step
-- ---------------------------------------------------------------------------

/-- `_extract_final_json_block` from `app/core/pipeline.py`: locate the last
`}`, then the last `{` strictly before it, decode the enclosed candidate
with `json.loads`, and keep the result only when it is a dict. -/
def extract_final_json_block (text : List Char) : Option (List (List Char × Json)) :=
  if text.isEmpty then none
  else
    match pyRfind text '}' with
    | none => none
    | some e =>
      match pyRfind (text.take e) '{' with
      | none => none
      | some st =>
        let candidate := (text.drop st).take (e + 1 - st)
        match json_loads candidate with
        | some (Json.obj kvs) => some kvs
        | _ => none

/-- `ChatResponse` as constructed at the end of `run_pipeline`
(`app/models/chat_response.py` is absent from the repository sources; the
fields are exactly the keyword arguments `run_pipeline` passes, which
`app/routers/chat.py` documents as `reply_text, intent, nav_goal,
session_id, tier_used`).  `nav_goal` keeps the decoded JSON value the
pipeline computed; `none` is Python `None`. -/
structure ChatResponse where
  reply_text : List Char
  intent : Intent
  nav_goal : Option Json
  tier_used : List Char
deriving Repr

/-- Python `str()` applied to a decoded JSON value, as `clamp_reply_text`
does for a non-string truthy `reply_text` payload (the printer for
containers is approximate; every claim only exercises string payloads). -/
def pyStrOfJson : Json → List Char
  | Json.null => "None".toList
  | Json.bool b => if b then "True".toList else "False".toList
  | Json.num raw => raw
  | Json.str s => s
  | Json.arr _ => "[...]".toList
  | Json.obj _ => "\x7b...\x7d".toList

/-- The argument coercion at the top of `clamp_reply_text`:
`text = reply_text if isinstance(reply_text, str) else str(reply_text or "")`. -/
def clampArg : Json → List Char
  | Json.str s => s
  | v => if jsonTruthy v then pyStrOfJson v else []

/-- Steps 9–11 of `run_pipeline` (`app/core/pipeline.py` lines 451–517):
extract the final JSON block from the model output, pick the reply text
(`parsed.get("reply_text") or parsed.get("reply") or ""`), keep the
deterministic classifier's intent unconditionally, prefer the canonical
nav goal over the model's suggestion, force `nav_goal` to `None` for
non-navigation intents, and clamp the reply length. -/
def combine_model_output (intent : Intent) (canonical_nav_goal : Option (List Char))
    (used_tier : List Char) (model_output : List Char) : ChatResponse :=
  let parsed : List (List Char × Json) :=
    (extract_final_json_block model_output).getD []
  let rt1 := pyGetVal parsed "reply_text".toList
  let rt2 := pyGetVal parsed "reply".toList
  let reply0 : Json :=
    if optTruthy rt1 then rt1.getD Json.null
    else if optTruthy rt2 then rt2.getD Json.null
    else Json.str []
  let model_nav_goal := pyGetVal parsed "nav_goal".toList
  let final_intent := intent
  let final_nav_goal : Option Json :=
    if optStrTruthy canonical_nav_goal then canonical_nav_goal.map Json.str
    else model_nav_goal
  let final_nav_goal := if is_nav_intent final_intent then final_nav_goal else none
  { reply_text := clamp_reply_text max_reply_chars (clampArg reply0)
    intent := final_intent
    nav_goal := final_nav_goal
    tier_used := used_tier }

/-- Step 2+3 of `run_pipeline`: the sanitized text the classifier sees. -/
def pipeline_clean_text (raw_text : List Char) : List Char :=
  (sanitize_user_text raw_text).sanitized

/-- Step 3 of `run_pipeline`: the deterministic intent for a raw utterance. -/
def pipeline_intent (raw_text : List Char) : Intent :=
  classify_intent (pipeline_clean_text raw_text)

/-- Step 4 of `run_pipeline`: canonical nav-goal resolution.  The location
directory lookup `resolve_nav_goal` of `app/core/map_lookup.py` reads
`known_locations.json`; it enters the pure pipeline as the abstract
function `resolveFn`.  Only navigation intents attempt resolution; the
rough extracted phrase is tried first, then the whole cleaned text. -/
def pipeline_canonical_goal (raw_text : List Char)
    (resolveFn : List Char → Option (List Char)) : Option (List Char) :=
  let clean := pipeline_clean_text raw_text
  let intent := pipeline_intent raw_text
  if is_nav_intent intent then
    let rough := extract_nav_goal clean
    let canonical :=
      match rough with
      | some g => if !g.isEmpty then resolveFn g else none
      | none => none
    match canonical with
    | some c => some c
    | none => resolveFn clean
  else none

/-- The deterministic skeleton of `run_pipeline` for one turn: sanitize,
classify, resolve the canonical goal, and combine with the generated model
output (steps 5–8 — telemetry/meta enrichment and the provider call — do
not affect the response fields other than through `model_output` and
`used_tier`, which enter as parameters). -/
def run_pipeline_core (raw_text : List Char)
    (resolveFn : List Char → Option (List Char))
    (model_output : List Char) (used_tier : List Char) : ChatResponse :=
  combine_model_output (pipeline_intent raw_text)
    (pipeline_canonical_goal raw_text resolveFn) used_tier model_output

-- ---------------------------------------------------------------------------
-- app/core/pipeline.py — telemetry snapshots in the enriched meta
-- ---------------------------------------------------------------------------

/-- Outcome of `NavState.load()` / `RobotStatus.load()` as observed by the
pipeline's try/except: the snapshot file is missing (`FileNotFoundError`),
loading raised some other exception (unreadable file, invalid or empty
JSON), or a snapshot dict was produced. -/
inductive SnapshotLoad
  | missing
  | failed
  | loaded (data : List (List Char × Json))

/-- `_load_nav_state_for_meta` from `app/core/pipeline.py`: missing file,
any load error, or a completely empty snapshot all yield `{}`. -/
def load_nav_state_for_meta : SnapshotLoad → List (List Char × Json)
  | SnapshotLoad.missing => []
  | SnapshotLoad.failed => []
  | SnapshotLoad.loaded d => if d.isEmpty then [] else d

/-- `_load_robot_status_for_meta` from `app/core/pipeline.py`: identical
fallback behaviour for the robot-status snapshot. -/
def load_robot_status_for_meta : SnapshotLoad → List (List Char × Json)
  | SnapshotLoad.missing => []
  | SnapshotLoad.failed => []
  | SnapshotLoad.loaded d => if d.isEmpty then [] else d

/-- Overwrite-or-append assignment `d[key] = value` on a dict embedded as
an association list in insertion order (CPython dicts preserve insertion
order; assigning an existing key updates it in place). -/
def dictSet {α : Type} (kvs : List (List Char × α)) (k : List Char) (v : α) :
    List (List Char × α) :=
  if (kvs.filter (fun kv => kv.1 = k)).isEmpty then kvs ++ [(k, v)]
  else kvs.map (fun kv => if kv.1 = k then (k, v) else kv)

/-- Step 5–6 of `run_pipeline` (lines 396–409): attach the telemetry
snapshots, the locations summary and canonical goal (only when non-empty),
and the `telemetry_flags` block to the enriched meta. -/
def attach_telemetry_meta (base : List (List Char × Json))
    (navLoad statusLoad : SnapshotLoad) (locations_summary : List Char)
    (canonical_nav_goal : Option (List Char)) : List (List Char × Json) :=
  let nav := load_nav_state_for_meta navLoad
  let rs := load_robot_status_for_meta statusLoad
  let m := dictSet base "nav_state".toList (Json.obj nav)
  let m := dictSet m "robot_status".toList (Json.obj rs)
  let m :=
    if !locations_summary.isEmpty then
      dictSet m "locations_summary".toList (Json.str locations_summary)
    else m
  let m :=
    if optStrTruthy canonical_nav_goal then
      dictSet m "canonical_nav_goal".toList
        (Json.str (canonical_nav_goal.getD []))
    else m
  dictSet m "telemetry_flags".toList
    (Json.obj [("has_nav_state".toList, Json.bool (!nav.isEmpty)),
               ("has_robot_status".toList, Json.bool (!rs.isEmpty))])

-- ---------------------------------------------------------------------------
-- app/providers — provider contracts and the Tier3 template fallback
-- ---------------------------------------------------------------------------

/-- `InputSource` from `app/models/chat_request.py`. -/
inductive InputSource
  | mic
  | keyboard
  | system
  | test
deriving DecidableEq, Repr

/-- `ChatRequest` from `app/models/chat_request.py` (the free-form `meta`
bag is a JSON dict). -/
structure ChatRequest where
  user_text : List Char
  source : InputSource := InputSource.mic
  language : Option (List Char) := some "en".toList
  session_id : Option (List Char) := none
  meta : List (List Char × Json) := []

/-- `Tier1Error` from `app/providers/tier1_online.py`: the recoverable
per-model failure (authentication, network, timeout, malformed or empty
response) raised by `call_tier1_model`. -/
structure Tier1Error where
  msg : List Char

/-- `Tier2Error` from `app/providers/tier2_local.py`. -/
structure Tier2Error where
  msg : List Char

/-- `call_tier3_fallback` from `app/providers/tier3_pi.py`: the fully
offline, deterministic template reply.  `intent.upper()` comparisons in
the source become a match on the closed `Intent` type (the classifier only
ever supplies one of the five labels); the `nav_goal_guess` truthiness
test mirrors `if nav_goal_guess:`. -/
def call_tier3_fallback (request : ChatRequest) (intent : Intent)
    (nav_goal_guess : Option (List Char)) : List Char :=
  let text := pyStripWs request.user_text
  match intent with
  | Intent.STOP => "Okay, I stop here and wait.".toList
  | Intent.FOLLOW => "Okay, I follow you. Please walk in front of me slowly.".toList
  | Intent.NAVIGATE =>
    if optStrTruthy nav_goal_guess then
      "Okay, I will guide you to ".toList ++ nav_goal_guess.getD [] ++
        ". Please follow me.".toList
    else
      "I can guide you in the building. Please tell me the room or place name.".toList
  | Intent.STATUS =>
    "I am Robot Savo, a guide robot. Right now I am just waiting here and ready to help.".toList
  | Intent.CHATBOT =>
    if !text.isEmpty then
      "You said: ".toList ++ text ++
        ". I am Robot Savo, how can I help you more?".toList
    else "Hello, I am Robot Savo. How can I help you?".toList

-- ---------------------------------------------------------------------------
-- app/core/generate.py — the 3-tier fallback chain
-- ---------------------------------------------------------------------------

/-- `ModelCallResult` from `app/core/types.py` (`raw` carries only the
backend tag the claims observe). -/
structure ModelCallResult where
  text : List Char
  used_tier : List Char
  raw_backend : List Char
deriving DecidableEq, Repr

/-- The generation-related settings fields `generate_reply_text` reads
(`settings.tier1_enabled`, `settings.tier1_api_key`,
`settings.tier1_model_candidates`, `settings.tier2_enabled`,
`settings.tier2_ollama_model`). -/
structure GenSettings where
  tier1_enabled : Bool
  tier1_api_key : List Char
  tier1_model_candidates : List (List Char)
  tier2_enabled : Bool
  tier2_ollama_model : List Char

/-- The Tier1 candidate loop of `generate_reply_text`: call each candidate
model in order, treating `Tier1Error` as "try the next candidate". -/
def tier1_loop (tier1Call : List Char → Except Tier1Error (List Char)) :
    List (List Char) → Option ModelCallResult
  | [] => none
  | m :: rest =>
    match tier1Call m with
    | Except.ok t => some ⟨t, "tier1".toList, "openrouter".toList⟩
    | Except.error _ => tier1_loop tier1Call rest

/-- `generate_reply_text` from `app/core/generate.py`.  The outbound HTTP
providers `call_tier1_model` / `call_tier2_model` enter as abstract
functions returning either text or their recoverable error (the prompt
and message assembly only shapes the text given to those calls and is
absorbed into them).  Tier1 runs only when enabled with a non-empty API
key and a non-empty candidate list; Tier2 only when enabled; the template
tier is the terminal fallback. -/
def generate_reply_text (st : GenSettings)
    (tier1Call : List Char → Except Tier1Error (List Char))
    (tier2Call : Unit → Except Tier2Error (List Char))
    (request : ChatRequest) (intent : Intent)
    (nav_goal_guess : Option (List Char)) : ModelCallResult :=
  let tier3 : ModelCallResult :=
    ⟨call_tier3_fallback request intent nav_goal_guess,
     "tier3".toList, "templates".toList⟩
  let t1 :=
    if st.tier1_enabled && !st.tier1_api_key.isEmpty then
      tier1_loop tier1Call st.tier1_model_candidates
    else none
  match t1 with
  | some r => r
  | none =>
    if st.tier2_enabled then
      match tier2Call () with
      | Except.ok t => ⟨t, "tier2".toList, "ollama".toList⟩
      | Except.error _ => tier3
    else tier3

-- ---------------------------------------------------------------------------
-- app/runtime_state/sessions.py — the file-backed session store
-- ---------------------------------------------------------------------------

/-- The `role` of a `SessionTurn`. -/
inductive Role
  | user
  | assistant
deriving DecidableEq, Repr

/-- `SessionTurn` from `app/runtime_state/sessions.py`; timestamps are
abstract instants (`datetime.now(timezone.utc)` values). -/
structure SessionTurn where
  role : Role
  text : List Char
  ts : Nat
deriving DecidableEq, Repr

/-- `SessionData` from `app/runtime_state/sessions.py`. -/
structure SessionData where
  session_id : List Char
  created_at : Nat
  last_seen : Nat
  last_intent : Option (List Char)
  last_nav_goal : Option (List Char)
  history : List SessionTurn
  summary : Option (List Char)
deriving DecidableEq, Repr

/-- `SessionStore` from `app/runtime_state/sessions.py`.  `state` is the
in-memory `RuntimeState.sessions` dict; `file` is the content of the
persisted `sessions.json` snapshot, modelled at the level of the validated
value (for these record types pydantic's `model_dump(mode="json")` and
`model_validate` round-trip, and `write_json_atomic` replaces the file
atomically). -/
structure SessionStore where
  max_history_turns : Nat
  auto_persist : Bool
  state : List (List Char × SessionData)
  file : List (List Char × SessionData)
deriving DecidableEq, Repr

/-- A fresh `SessionData(session_id=sid)` as built by
`get_or_create_session`: default factories stamp the current time. -/
def new_session (sid : List Char) (now : Nat) : SessionData :=
  ⟨sid, now, now, none, none, [], none⟩

/-- The turn list contributed by an optional user/assistant text:
`history.append(SessionTurn(role=..., text=..., ts=now))` guarded by
`if ... is not None`. -/
def turnsOf (role : Role) (text : Option (List Char)) (now : Nat) :
    List SessionTurn :=
  match text with
  | some t => [⟨role, t, now⟩]
  | none => []

/-- Python `history[-n:]` including the `n = 0` quirk (`h[-0:]` is the
whole list, so a cap of 0 would not truncate at all). -/
def pySliceLast (n : Nat) (l : List SessionTurn) : List SessionTurn :=
  if n = 0 then l else l.drop (l.length - n)

/-- `SessionStore.update_from_interaction` from
`app/runtime_state/sessions.py`: get or create the session, stamp
`last_seen`, append the provided user/assistant turns with the current
timestamp, update `last_intent` / `last_nav_goal` / `summary` only when a
value is provided, truncate the history to the last `max_history_turns`
entries when it overflows, store the session back, and persist the state
to the snapshot file when `auto_persist` is set.  Returns the updated
store and session. -/
def update_from_interaction (store : SessionStore) (session_id : List Char)
    (user_text assistant_text intent nav_goal summary : Option (List Char))
    (now : Nat) : SessionStore × SessionData :=
  let sess0 :=
    match dictGet store.state session_id with
    | some s => s
    | none => new_session session_id now
  let hist :=
    sess0.history ++ turnsOf Role.user user_text now ++
      turnsOf Role.assistant assistant_text now
  let hist :=
    if hist.length > store.max_history_turns then
      pySliceLast store.max_history_turns hist
    else hist
  let sess1 : SessionData :=
    { sess0 with
      last_seen := now
      last_intent := match intent with
        | some i => some i
        | none => sess0.last_intent
      last_nav_goal := match nav_goal with
        | some g => some g
        | none => sess0.last_nav_goal
      summary := match summary with
        | some s => some s
        | none => sess0.summary
      history := hist }
  let state1 := dictSet store.state session_id sess1
  ({ store with
     state := state1
     file := if store.auto_persist then state1 else store.file },
   sess1)

/-- A restart: `SessionStore._load_from_disk` builds the in-memory state
from the persisted snapshot file. -/
def reload_store (s : SessionStore) : SessionStore :=
  { s with state := s.file }

/-- `SessionStore.get_history_as_messages`: the stored turns as role/text
message pairs, empty for an unknown session. -/
def get_history_as_messages (store : SessionStore) (session_id : List Char) :
    List (Role × List Char) :=
  match dictGet store.state session_id with
  | none => []
  | some sess => sess.history.map (fun t => (t.role, t.text))

-- ---------------------------------------------------------------------------
-- Helper lemmas
-- ---------------------------------------------------------------------------

/-- ASCII lowercasing fixes whitespace characters. -/
theorem pyToLower_of_space {c : Char} (h : pyIsSpace c = true) :
    pyToLower c = c := by
  simp only [pyIsSpace, Bool.or_eq_true, decide_eq_true_eq] at h
  rcases h with ((((h | h) | h) | h) | h) | h <;> subst h <;> decide

/-- If the raw text strips to empty, every character is whitespace. -/
theorem all_space_of_pyStripWs_eq_nil {s : List Char} (h : pyStripWs s = []) :
    ∀ c ∈ s, pyIsSpace c = true := by
  unfold pyStripWs dropWhileEnd at h
  rw [List.reverse_eq_nil_iff, List.dropWhile_eq_nil_iff] at h
  intro c hc
  rcases List.mem_append.mp
      ((List.takeWhile_append_dropWhile (p := pyIsSpace) (l := s)) ▸ hc) with
    hmem | hmem
  · exact List.mem_takeWhile_imp hmem
  · exact h c (List.mem_reverse.mpr hmem)

/-- An all-whitespace list strips to empty. -/
theorem pyStripWs_eq_nil_of_all_space {s : List Char}
    (h : ∀ c ∈ s, pyIsSpace c = true) : pyStripWs s = [] := by
  unfold pyStripWs dropWhileEnd
  rw [List.dropWhile_eq_nil_iff.mpr h]
  rfl

/-- `str.split()` of all-whitespace text is empty. -/
theorem wordsAux_all_space {s : List Char}
    (h : ∀ c ∈ s, pyIsSpace c = true) : wordsAux s [] = [] := by
  induction s with
  | nil => rfl
  | cons c cs ih =>
    have hc : pyIsSpace c = true := h c (List.mem_cons_self c cs)
    simp only [wordsAux, hc, if_true, List.isEmpty_nil]
    exact ih (fun d hd => h d (List.mem_cons_of_mem c hd))

/-- If the raw text strips to empty, its normalized form is empty. -/
theorem normalize_text_eq_nil_of_strip_nil {s : List Char}
    (h : pyStripWs s = []) : normalize_text s = [] := by
  have hall : ∀ c ∈ s, pyIsSpace c = true := all_space_of_pyStripWs_eq_nil h
  have hlow : ∀ c ∈ s.map pyToLower, pyIsSpace c = true := by
    intro c hc
    rcases List.mem_map.mp hc with ⟨d, hd, rfl⟩
    rw [pyToLower_of_space (hall d hd)]
    exact hall d hd
  unfold normalize_text pySplit
  rw [pyStripWs_eq_nil_of_all_space hlow]
  rfl

-- ---------------------------------------------------------------------------
-- C1 — STOP priority
-- ---------------------------------------------------------------------------

/-- C1: for every string input whose normalized (lowercased, trimmed,
whitespace-collapsed) form contains any STOP keyword as a substring,
`classify_intent` returns STOP — regardless of which FOLLOW, NAVIGATE or
STATUS keywords also occur, since the STOP check is the first one made
(priority order STOP > FOLLOW > NAVIGATE > STATUS > CHATBOT). -/
theorem classify_intent_stop_priority (s : List Char)
    (h : ∃ k ∈ STOP_KEYWORDS, pyContains (normalize_text s) k = true) :
    classify_intent s = Intent.STOP := by
  obtain ⟨k, hk, hc⟩ := h
  have hne : ¬ pyStripWs s = [] := by
    intro hnil
    rw [normalize_text_eq_nil_of_strip_nil hnil] at hc
    have hkall : ∀ k' ∈ STOP_KEYWORDS, ¬ k'.isEmpty := by decide
    have hkne : ¬ k.isEmpty := hkall k hk
    simp only [pyContains, pyFind] at hc
    rw [if_neg hkne] at hc
    exact absurd hc (by simp)
  have hany : containsAny (normalize_text s) STOP_KEYWORDS = true := by
    simp only [containsAny, List.any_eq_true]
    exact ⟨k, hk, hc⟩
  simp only [classify_intent, if_neg hne, hany, if_true]

/-- Witness for C1: an utterance mixing STOP, NAVIGATE and STATUS keywords
("please stop", "take me to", "battery level") still classifies as STOP. -/
theorem classify_intent_stop_priority_witness :
    (∃ k ∈ STOP_KEYWORDS,
        pyContains
          (normalize_text
            "Please STOP, don't take me to A201, what is the battery level".toList)
          k = true) ∧
      classify_intent
          "Please STOP, don't take me to A201, what is the battery level".toList =
        Intent.STOP :=
  ⟨⟨"stop".toList, by decide, by decide⟩,
   classify_intent_stop_priority _ ⟨"stop".toList, by decide, by decide⟩⟩

-- ---------------------------------------------------------------------------
-- C5 — totality of the classifier
-- ---------------------------------------------------------------------------

/-- C5: `classify_intent` is total on strings and always returns one of the
five labels (the closed `Intent` type, one case per label); empty or
whitespace-only input yields CHATBOT; through the dynamically-typed entry
point, every string input succeeds (no exception) and every non-string
input raises `TypeError`. -/
theorem classify_intent_total :
    (∀ s : List Char,
        classify_intent s = Intent.STOP ∨ classify_intent s = Intent.FOLLOW ∨
        classify_intent s = Intent.NAVIGATE ∨ classify_intent s = Intent.STATUS ∨
        classify_intent s = Intent.CHATBOT) ∧
    (∀ s : List Char, (∀ c ∈ s, pyIsSpace c = true) →
        classify_intent s = Intent.CHATBOT) ∧
    (∀ s : List Char,
        classify_intent_dyn (PyValue.str s) = Except.ok (classify_intent s)) ∧
    (∀ v : PyValue, (∀ s, v ≠ PyValue.str s) →
        classify_intent_dyn v = Except.error PyError.typeError) := by
  refine ⟨?_, ?_, ?_, ?_⟩
  · intro s
    cases hc : classify_intent s <;> simp [hc]
  · intro s h
    unfold classify_intent
    rw [if_pos (pyStripWs_eq_nil_of_all_space h)]
  · intro s
    rfl
  · intro v hv
    cases v with
    | str s => exact absurd rfl (hv s)
    | int _ => rfl
    | pyNone => rfl
    | bool _ => rfl
    | list _ => rfl

/-- Witness for C5: whitespace-only input classifies as CHATBOT and an
integer input raises `TypeError`. -/
theorem classify_intent_total_witness :
    classify_intent " \t \n ".toList = Intent.CHATBOT ∧
      classify_intent_dyn (PyValue.int 7) = Except.error PyError.typeError :=
  ⟨classify_intent_total.2.1 _ (by decide),
   classify_intent_total.2.2.2 _ (fun s h => by cases h)⟩

-- ---------------------------------------------------------------------------
-- C7 — reply clamping
-- ---------------------------------------------------------------------------

set_option maxRecDepth 8000 in
/-- Counterexample to C7 as stated: with the configured cap of 512, a
513-character reply whose cut point falls inside trailing whitespace is
clamped to 503 characters, not exactly 512 — `clamp_reply_text` right-strips
the cut text before appending the `"..."` marker. -/
theorem clamp_reply_text_cex :
    max_reply_chars = 512 ∧
      (List.replicate 500 'a' ++ List.replicate 13 ' ').length = 513 ∧
      (clamp_reply_text max_reply_chars
          (List.replicate 500 'a' ++ List.replicate 13 ' ')).length = 503 := by
  refine ⟨rfl, by norm_num [List.length_append, List.length_replicate], ?_⟩
  decide

/-- C7 as amended: for every positive cap, replies at or under the cap are
returned unchanged, and longer replies are truncated to **at most** the cap
(the `"..."` marker counted within that bound); the truncated length can be
strictly below the cap because the cut text is right-stripped before the
marker is appended. -/
theorem clamp_reply_text_bound (limit : Int) (text : List Char)
    (h : 0 < limit) :
    ((text.length : Int) ≤ limit → clamp_reply_text limit text = text) ∧
    (limit < (text.length : Int) →
      ((clamp_reply_text limit text).length : Int) ≤ limit) := by
  constructor
  · intro hle
    unfold clamp_reply_text
    rw [if_neg (by omega), if_pos hle]
  · intro hgt
    unfold clamp_reply_text
    rw [if_neg (by omega), if_neg (by omega)]
    split_ifs with h3
    · have h1 : (dropWhileEnd pyIsSpace (text.take (limit - 3).toNat)).length ≤
          (text.take (limit - 3).toNat).length := by
        unfold dropWhileEnd
        calc ((text.take (limit - 3).toNat).reverse.dropWhile pyIsSpace).reverse.length
            = ((text.take (limit - 3).toNat).reverse.dropWhile pyIsSpace).length := by
              rw [List.length_reverse]
          _ ≤ (text.take (limit - 3).toNat).reverse.length :=
              (List.dropWhile_sublist _).length_le
          _ = (text.take (limit - 3).toNat).length := by rw [List.length_reverse]
      have h2 : (text.take (limit - 3).toNat).length ≤ (limit - 3).toNat :=
        le_trans (le_of_eq (List.length_take _ _)) (Nat.min_le_left _ _)
      have h4 : ((limit - 3).toNat : Int) = limit - 3 := Int.toNat_of_nonneg (by omega)
      rw [List.length_append]
      have h5 : ("...".toList : List Char).length = 3 := rfl
      push_cast
      omega
    · have h2 : (text.take limit.toNat).length ≤ limit.toNat :=
        le_trans (le_of_eq (List.length_take _ _)) (Nat.min_le_left _ _)
      have h4 : (limit.toNat : Int) = limit := Int.toNat_of_nonneg (by omega)
      omega

/-- Witness for the amended C7 at the configured cap of 512: a short reply
passes through unchanged, and an over-long reply is clamped within the cap. -/
theorem clamp_reply_text_bound_witness :
    (0 : Int) < 512 ∧
      clamp_reply_text 512 "Okay, I stop here and wait.".toList =
        "Okay, I stop here and wait.".toList ∧
      ((clamp_reply_text 512 (List.replicate 600 'x')).length : Int) ≤ 512 :=
  ⟨by decide,
   (clamp_reply_text_bound 512 "Okay, I stop here and wait.".toList
      (by decide)).1 (by decide),
   (clamp_reply_text_bound 512 (List.replicate 600 'x') (by decide)).2
      (by norm_num [List.length_replicate])⟩

-- ---------------------------------------------------------------------------
-- C2 / C4 — combine-step invariants of run_pipeline
-- ---------------------------------------------------------------------------

/-- The combine step keeps the deterministic classifier's intent verbatim:
`final_intent = intent` in `run_pipeline`, whatever the parsed payload says. -/
theorem combine_model_output_intent (intent : Intent)
    (canonical_nav_goal : Option (List Char)) (used_tier model_output : List Char) :
    (combine_model_output intent canonical_nav_goal used_tier model_output).intent =
      intent := rfl

/-- The combine step forces `nav_goal` to `None` for non-navigation intents. -/
theorem combine_model_output_nav_goal_none (intent : Intent)
    (canonical_nav_goal : Option (List Char)) (used_tier model_output : List Char)
    (h : is_nav_intent intent = false) :
    (combine_model_output intent canonical_nav_goal used_tier model_output).nav_goal =
      none := by
  simp only [combine_model_output, h, Bool.false_eq_true, if_false]

/-- The deterministic skeleton unfolds to the combine step (definitional). -/
theorem run_pipeline_core_eq_combine (raw_text : List Char)
    (resolveFn : List Char → Option (List Char))
    (model_output used_tier : List Char) :
    run_pipeline_core raw_text resolveFn model_output used_tier =
      combine_model_output (pipeline_intent raw_text)
        (pipeline_canonical_goal raw_text resolveFn) used_tier model_output := rfl

/-- C2: for every turn and every generated model output, the `intent` of the
final `ChatResponse` is the deterministic classifier's output on the
sanitized user text — the model's proposed intent never replaces it.  The
second conjunct exercises the spec's own example: an output whose decoded
payload carries the out-of-set label `"DANCE"` still yields the classifier's
CHATBOT for a small-talk utterance. -/
theorem pipeline_intent_authoritative :
    (∀ (raw_text : List Char) (resolveFn : List Char → Option (List Char))
        (model_output used_tier : List Char),
        (run_pipeline_core raw_text resolveFn model_output used_tier).intent =
          classify_intent ((sanitize_user_text raw_text).sanitized)) ∧
    (dictGet
        ((extract_final_json_block
            "Let us dance! \x7b\"reply_text\": \"Let us dance!\", \"intent\": \"DANCE\", \"nav_goal\": null\x7d".toList).getD
          [])
        "intent".toList = some (Json.str "DANCE".toList) ∧
      (run_pipeline_core "hello robot savo".toList (fun _ => none)
          "Let us dance! \x7b\"reply_text\": \"Let us dance!\", \"intent\": \"DANCE\", \"nav_goal\": null\x7d".toList
          "tier1".toList).intent = Intent.CHATBOT) := by
  refine ⟨fun raw_text resolveFn model_output used_tier => ?_, rfl, ?_⟩
  · rw [run_pipeline_core_eq_combine]
    exact combine_model_output_intent _ _ _ _
  · rw [run_pipeline_core_eq_combine]
    exact combine_model_output_intent _ _ _ _

/-- C4: in every final `ChatResponse`, `nav_goal` is non-null only when the
final intent is FOLLOW or NAVIGATE; for STOP, STATUS and CHATBOT intents it
is forced to null even when the extractor, resolver, or model proposed a
goal (the resolver function and the model payload are universally
quantified, so in particular they may propose one). -/
theorem pipeline_nav_goal_gating (raw_text : List Char)
    (resolveFn : List Char → Option (List Char))
    (model_output used_tier : List Char)
    (h : (run_pipeline_core raw_text resolveFn model_output used_tier).intent =
          Intent.STOP ∨
        (run_pipeline_core raw_text resolveFn model_output used_tier).intent =
          Intent.STATUS ∨
        (run_pipeline_core raw_text resolveFn model_output used_tier).intent =
          Intent.CHATBOT) :
    (run_pipeline_core raw_text resolveFn model_output used_tier).nav_goal =
      none := by
  rw [run_pipeline_core_eq_combine] at h ⊢
  rw [combine_model_output_intent] at h
  have hnav : is_nav_intent (pipeline_intent raw_text) = false := by
    rcases h with h | h | h <;> rw [h] <;> rfl
  exact combine_model_output_nav_goal_none _ _ _ _ hnav

/-- Witness for C4: "stop please" with a resolver that proposes A201 and a
model payload that proposes a dance floor still yields a null `nav_goal`. -/
theorem pipeline_nav_goal_gating_witness :
    (run_pipeline_core "stop please".toList (fun _ => some "A201".toList)
        "Ok! \x7b\"reply_text\": \"Ok!\", \"intent\": \"NAVIGATE\", \"nav_goal\": \"Dance Floor\"\x7d".toList
        "tier1".toList).nav_goal = none :=
  pipeline_nav_goal_gating _ _ _ _ (Or.inl rfl)

-- ---------------------------------------------------------------------------
-- C3 — fallback to the template tier
-- ---------------------------------------------------------------------------

/-- The Tier3 template reply is non-empty for every intent and input. -/
theorem call_tier3_fallback_ne_nil (request : ChatRequest) (intent : Intent)
    (nav_goal_guess : Option (List Char)) :
    call_tier3_fallback request intent nav_goal_guess ≠ [] := by
  unfold call_tier3_fallback
  cases intent <;> first
    | (simp only; split_ifs <;> simp)
    | simp

/-- If every Tier1 candidate raises `Tier1Error`, the candidate loop is
exhausted. -/
theorem tier1_loop_eq_none (tier1Call : List Char → Except Tier1Error (List Char))
    (models : List (List Char))
    (h : ∀ m ∈ models, ∃ e, tier1Call m = Except.error e) :
    tier1_loop tier1Call models = none := by
  induction models with
  | nil => rfl
  | cons m rest ih =>
    obtain ⟨e, he⟩ := h m (List.mem_cons_self m rest)
    simp only [tier1_loop, he]
    exact ih (fun m' hm' => h m' (List.mem_cons_of_mem m hm'))

/-- C3: when every Tier1 candidate raises a recoverable error (which also
covers Tier1 being disabled, missing its API key, or having no configured
candidates) and Tier2 is disabled or fails, `generate_reply_text` returns
the template tier's text, marked `used_tier = "tier3"`, and that text is
non-empty; moreover the template tier is a total function that produces
non-empty output for every intent and input, so every turn produces output. -/
theorem generate_reply_text_tier3_fallback (st : GenSettings)
    (tier1Call : List Char → Except Tier1Error (List Char))
    (tier2Call : Unit → Except Tier2Error (List Char))
    (request : ChatRequest) (intent : Intent)
    (nav_goal_guess : Option (List Char))
    (h1 : ∀ m ∈ st.tier1_model_candidates, ∃ e, tier1Call m = Except.error e)
    (h2 : st.tier2_enabled = false ∨ ∃ e, tier2Call () = Except.error e) :
    (generate_reply_text st tier1Call tier2Call request intent
        nav_goal_guess).used_tier = "tier3".toList ∧
      (generate_reply_text st tier1Call tier2Call request intent
          nav_goal_guess).text =
        call_tier3_fallback request intent nav_goal_guess ∧
      (generate_reply_text st tier1Call tier2Call request intent
          nav_goal_guess).text ≠ [] ∧
      (∀ (r : ChatRequest) (i : Intent) (g : Option (List Char)),
        call_tier3_fallback r i g ≠ []) := by
  have hloop : (if st.tier1_enabled && !st.tier1_api_key.isEmpty then
      tier1_loop tier1Call st.tier1_model_candidates else none) = none := by
    split_ifs with hc
    · exact tier1_loop_eq_none tier1Call _ h1
    · rfl
  have hgen : generate_reply_text st tier1Call tier2Call request intent
      nav_goal_guess =
      ⟨call_tier3_fallback request intent nav_goal_guess,
       "tier3".toList, "templates".toList⟩ := by
    unfold generate_reply_text
    rw [hloop]
    rcases h2 with h2 | ⟨e, he⟩
    · simp only [h2, Bool.false_eq_true, if_false]
    · simp only [he]
      split_ifs <;> rfl
  rw [hgen]
  exact ⟨rfl, rfl, call_tier3_fallback_ne_nil _ _ _,
    fun r i g => call_tier3_fallback_ne_nil r i g⟩

/-- Witness for C3: one configured Tier1 candidate that times out, Tier2
enabled but unreachable — the chain lands on the tier3 template reply. -/
theorem generate_reply_text_tier3_fallback_witness :
    (generate_reply_text
        ⟨true, "sk-test".toList, ["deepseek/deepseek-chat-v3.1".toList], true,
         "llama3".toList⟩
        (fun _ => Except.error ⟨"timeout".toList⟩)
        (fun _ => Except.error ⟨"connection refused".toList⟩)
        ⟨"hello robot".toList, InputSource.mic, some "en".toList, none, []⟩
        Intent.CHATBOT none).used_tier = "tier3".toList ∧
      (generate_reply_text
          ⟨true, "sk-test".toList, ["deepseek/deepseek-chat-v3.1".toList], true,
           "llama3".toList⟩
          (fun _ => Except.error ⟨"timeout".toList⟩)
          (fun _ => Except.error ⟨"connection refused".toList⟩)
          ⟨"hello robot".toList, InputSource.mic, some "en".toList, none, []⟩
          Intent.CHATBOT none).text ≠ [] := by
  refine ⟨?_, ?_⟩
  · exact (generate_reply_text_tier3_fallback _ _ _ _ _ _
      (fun m _ => ⟨⟨"timeout".toList⟩, rfl⟩)
      (Or.inr ⟨⟨"connection refused".toList⟩, rfl⟩)).1
  · exact (generate_reply_text_tier3_fallback _ _ _ _ _ _
      (fun m _ => ⟨⟨"timeout".toList⟩, rfl⟩)
      (Or.inr ⟨⟨"connection refused".toList⟩, rfl⟩)).2.2.1

-- ---------------------------------------------------------------------------
-- C6 — behaviour when no structured payload decodes
-- ---------------------------------------------------------------------------

/-- When no JSON block decodes from the model output, the combine step
produces an empty reply (Python `parsed.get(...) or ""` on an empty
`parsed`), keeps the classifier intent, and keeps only the canonical nav
goal; the constructed response carries no diagnostic field. -/
theorem combine_model_output_no_json (intent : Intent)
    (canonical : Option (List Char)) (used_tier model_output : List Char)
    (h : extract_final_json_block model_output = none) :
    combine_model_output intent canonical used_tier model_output =
      { reply_text := []
        intent := intent
        nav_goal :=
          if is_nav_intent intent = true then
            (if optStrTruthy canonical = true then canonical.map Json.str
             else none)
          else none
        tier_used := used_tier } := by
  unfold combine_model_output
  rw [h]
  rfl

/-- Counterexample to C6 as stated: on a generated text with no structured
payload, the final reply text is the **empty string**, not the raw
generated text capped to the reply limit (which here is the non-empty text
itself); and the response record carries no diagnostic code field at all. -/
theorem pipeline_no_json_cex :
    extract_final_json_block "I am Robot Savo, happy to help!".toList = none ∧
      (run_pipeline_core "hello robot".toList (fun _ => none)
          "I am Robot Savo, happy to help!".toList "tier3".toList).reply_text =
        [] ∧
      clamp_reply_text max_reply_chars
          "I am Robot Savo, happy to help!".toList =
        "I am Robot Savo, happy to help!".toList ∧
      ("I am Robot Savo, happy to help!".toList : List Char) ≠ [] :=
  ⟨rfl, rfl, rfl, by decide⟩

/-- C6 as amended: when the generated text contains no decodable trailing
structured object, `run_pipeline` keeps the deterministic classifier's
intent and the deterministic canonical goal (null unless the intent is
navigational and the canonical goal truthy), but the reply text falls back
to the **empty string** (the clamp of `""`), not to the raw generated text;
and no diagnostic code is recorded — the response record has no such field
and the failure is only logged. -/
theorem pipeline_no_json_fallback (raw_text : List Char)
    (resolveFn : List Char → Option (List Char))
    (model_output used_tier : List Char)
    (h : extract_final_json_block model_output = none) :
    run_pipeline_core raw_text resolveFn model_output used_tier =
      { reply_text := []
        intent := pipeline_intent raw_text
        nav_goal :=
          if is_nav_intent (pipeline_intent raw_text) = true then
            (if optStrTruthy (pipeline_canonical_goal raw_text resolveFn) = true
              then (pipeline_canonical_goal raw_text resolveFn).map Json.str
              else none)
          else none
        tier_used := used_tier } := by
  rw [run_pipeline_core_eq_combine]
  exact combine_model_output_no_json _ _ _ _ h

/-- Witness for the amended C6: a navigation turn whose model output has no
JSON block keeps the classifier intent and the resolver goal but replies
with the empty string. -/
theorem pipeline_no_json_fallback_witness :
    run_pipeline_core "take me to a201".toList
        (fun s => if s = "a201".toList then some "A201".toList else none)
        "Sure, follow me please.".toList "tier2".toList =
      { reply_text := []
        intent := pipeline_intent "take me to a201".toList
        nav_goal :=
          if is_nav_intent (pipeline_intent "take me to a201".toList) = true then
            (if optStrTruthy
                (pipeline_canonical_goal "take me to a201".toList
                  (fun s => if s = "a201".toList then some "A201".toList
                    else none)) = true
              then (pipeline_canonical_goal "take me to a201".toList
                  (fun s => if s = "a201".toList then some "A201".toList
                    else none)).map Json.str
              else none)
          else none
        tier_used := "tier2".toList } :=
  pipeline_no_json_fallback _ _ _ _ rfl

-- ---------------------------------------------------------------------------
-- Dictionary lemmas
-- ---------------------------------------------------------------------------

/-- Reading back the key just assigned returns the assigned value. -/
theorem dictGet_dictSet_same {α : Type} (kvs : List (List Char × α))
    (k : List Char) (v : α) : dictGet (dictSet kvs k v) k = some v := by
  unfold dictGet dictSet
  split_ifs with hemp
  · rw [List.filter_append]
    rw [List.isEmpty_iff] at hemp
    rw [hemp]
    simp
  · rw [List.filter_map]
    have hcongr : (kvs.filter
        ((fun kv => decide (kv.1 = k)) ∘ fun kv => if kv.1 = k then (k, v) else kv)) =
        kvs.filter (fun kv => decide (kv.1 = k)) := by
      apply List.filter_congr
      intro x _
      by_cases hx : x.1 = k
      · simp [hx]
      · simp [hx]
    rw [hcongr]
    rw [List.isEmpty_iff] at hemp
    have hsome : (kvs.filter (fun kv => decide (kv.1 = k))).getLast?.isSome := by
      rw [List.getLast?_isSome]
      exact hemp
    obtain ⟨x, hx⟩ := Option.isSome_iff_exists.mp hsome
    have hxk : x.1 = k := by
      have hmem := List.mem_of_mem_getLast? hx
      have := List.of_mem_filter hmem
      simpa using this
    rw [List.getLast?_map, hx]
    simp [hxk]

/-- Assigning one key leaves lookups of a different key unchanged. -/
theorem dictGet_dictSet_other {α : Type} (kvs : List (List Char × α))
    (k k' : List Char) (v : α) (hne : k ≠ k') :
    dictGet (dictSet kvs k' v) k = dictGet kvs k := by
  unfold dictGet dictSet
  split_ifs with hemp
  · rw [List.filter_append]
    have : ([(k', v)].filter (fun kv => decide (kv.1 = k))) = [] := by
      simp [Ne.symm hne]
    rw [this, List.append_nil]
  · rw [List.filter_map]
    have hcongr : (kvs.filter
        ((fun kv => decide (kv.1 = k)) ∘ fun kv => if kv.1 = k' then (k', v) else kv)) =
        kvs.filter (fun kv => decide (kv.1 = k)) := by
      apply List.filter_congr
      intro x _
      by_cases hx : x.1 = k'
      · simp [hx, Ne.symm hne, hx ▸ (Ne.symm hne)]
      · simp [hx]
    rw [hcongr]
    have hid : ((kvs.filter (fun kv => decide (kv.1 = k))).map
        (fun kv => if kv.1 = k' then (k', v) else kv)) =
        kvs.filter (fun kv => decide (kv.1 = k)) := by
      conv_rhs => rw [show kvs.filter (fun kv => decide (kv.1 = k)) =
        (kvs.filter (fun kv => decide (kv.1 = k))).map id from
          (List.map_id _).symm]
      apply List.map_congr_left
      intro x hmem
      have hxk : x.1 = k := by
        have := List.of_mem_filter hmem
        simpa using this
      have : ¬ x.1 = k' := by rw [hxk]; exact hne
      simp [this]
    rw [hid]

-- ---------------------------------------------------------------------------
-- C9 — telemetry snapshots absent when never recorded
-- ---------------------------------------------------------------------------

/-- C9: when no navigation or robot-status telemetry has ever been recorded
(the snapshot files are missing, empty/invalid, or unreadable — every such
outcome of `NavState.load` / `RobotStatus.load`, plus a degenerate empty
snapshot), the enriched meta passed to generation carries **empty**
telemetry snapshots under `nav_state` / `robot_status` and both
`telemetry_flags` are false: no sensor values are present and none are
filled in from model defaults, so generation cannot fabricate sensor
values. -/
theorem telemetry_absent_when_unrecorded (base : List (List Char × Json))
    (navLoad statusLoad : SnapshotLoad) (locations_summary : List Char)
    (canonical_nav_goal : Option (List Char))
    (hn : navLoad = SnapshotLoad.missing ∨ navLoad = SnapshotLoad.failed ∨
      navLoad = SnapshotLoad.loaded [])
    (hs : statusLoad = SnapshotLoad.missing ∨ statusLoad = SnapshotLoad.failed ∨
      statusLoad = SnapshotLoad.loaded []) :
    dictGet (attach_telemetry_meta base navLoad statusLoad locations_summary
        canonical_nav_goal) "nav_state".toList = some (Json.obj []) ∧
      dictGet (attach_telemetry_meta base navLoad statusLoad locations_summary
          canonical_nav_goal) "robot_status".toList = some (Json.obj []) ∧
      dictGet (attach_telemetry_meta base navLoad statusLoad locations_summary
          canonical_nav_goal) "telemetry_flags".toList =
        some (Json.obj [("has_nav_state".toList, Json.bool false),
                        ("has_robot_status".toList, Json.bool false)]) := by
  have hnav : load_nav_state_for_meta navLoad = [] := by
    rcases hn with h | h | h <;> subst h <;> rfl
  have hrs : load_robot_status_for_meta statusLoad = [] := by
    rcases hs with h | h | h <;> subst h <;> rfl
  unfold attach_telemetry_meta
  rw [hnav, hrs]
  refine ⟨?_, ?_, ?_⟩
  · rw [dictGet_dictSet_other _ _ _ _ (by decide)]
    split_ifs <;>
      [skip; skip; skip; skip] <;>
      first
        | (rw [dictGet_dictSet_other _ _ _ _ (by decide),
            dictGet_dictSet_other _ _ _ _ (by decide),
            dictGet_dictSet_other _ _ _ _ (by decide)]
           exact dictGet_dictSet_same _ _ _)
        | (rw [dictGet_dictSet_other _ _ _ _ (by decide),
            dictGet_dictSet_other _ _ _ _ (by decide)]
           exact dictGet_dictSet_same _ _ _)
        | (rw [dictGet_dictSet_other _ _ _ _ (by decide)]
           exact dictGet_dictSet_same _ _ _)
  · rw [dictGet_dictSet_other _ _ _ _ (by decide)]
    split_ifs <;>
      first
        | (rw [dictGet_dictSet_other _ _ _ _ (by decide),
            dictGet_dictSet_other _ _ _ _ (by decide)]
           exact dictGet_dictSet_same _ _ _)
        | (rw [dictGet_dictSet_other _ _ _ _ (by decide)]
           exact dictGet_dictSet_same _ _ _)
        | exact dictGet_dictSet_same _ _ _
  · exact dictGet_dictSet_same _ _ _

/-- Witness for C9: a missing nav-state file and an unreadable robot-status
file yield empty snapshots and false telemetry flags. -/
theorem telemetry_absent_when_unrecorded_witness :
    dictGet (attach_telemetry_meta [("client".toList, Json.str "pi5".toList)]
        SnapshotLoad.missing SnapshotLoad.failed
        "Known locations: A201 (Room A201 (Lab))".toList
        (some "A201".toList)) "nav_state".toList = some (Json.obj []) ∧
      dictGet (attach_telemetry_meta [("client".toList, Json.str "pi5".toList)]
          SnapshotLoad.missing SnapshotLoad.failed
          "Known locations: A201 (Room A201 (Lab))".toList
          (some "A201".toList)) "robot_status".toList = some (Json.obj []) ∧
      dictGet (attach_telemetry_meta [("client".toList, Json.str "pi5".toList)]
          SnapshotLoad.missing SnapshotLoad.failed
          "Known locations: A201 (Room A201 (Lab))".toList
          (some "A201".toList)) "telemetry_flags".toList =
        some (Json.obj [("has_nav_state".toList, Json.bool false),
                        ("has_robot_status".toList, Json.bool false)]) :=
  telemetry_absent_when_unrecorded _ _ _ _ _ (Or.inl rfl) (Or.inr (Or.inl rfl))

-- ---------------------------------------------------------------------------
-- C8 / C10 — session store update and round-trip
-- ---------------------------------------------------------------------------

/-- Truncation keeps a suffix (the most recent turns). -/
theorem pySliceLast_suffix (n : Nat) (l : List SessionTurn) :
    pySliceLast n l <:+ l := by
  unfold pySliceLast
  split_ifs
  · exact List.suffix_refl l
  · exact List.drop_suffix _ _

/-- Truncating an overflowing history to a positive cap gives exactly the
cap. -/
theorem pySliceLast_length (n : Nat) (l : List SessionTurn) (hn : 1 ≤ n)
    (h : n ≤ l.length) : (pySliceLast n l).length = n := by
  unfold pySliceLast
  rw [if_neg (by omega), List.length_drop]
  omega

/-- `update_from_interaction` on an existing session, with the session
lookup resolved (pure unfolding of the definition). -/
theorem update_from_interaction_eq (store : SessionStore) (session_id : List Char)
    (user_text assistant_text intent nav_goal summary : Option (List Char))
    (now : Nat) (sess0 : SessionData)
    (h0 : dictGet store.state session_id = some sess0) :
    update_from_interaction store session_id user_text assistant_text intent
        nav_goal summary now =
      (let hist0 := sess0.history ++ turnsOf Role.user user_text now ++
          turnsOf Role.assistant assistant_text now
       let sess1 : SessionData :=
         { sess0 with
           last_seen := now
           last_intent := match intent with
             | some i => some i
             | none => sess0.last_intent
           last_nav_goal := match nav_goal with
             | some g => some g
             | none => sess0.last_nav_goal
           summary := match summary with
             | some s => some s
             | none => sess0.summary
           history := if hist0.length > store.max_history_turns then
               pySliceLast store.max_history_turns hist0
             else hist0 }
       ({ store with
          state := dictSet store.state session_id sess1
          file := if store.auto_persist then dictSet store.state session_id sess1
            else store.file },
        sess1)) := by
  unfold update_from_interaction
  rw [h0]

/-- `update_from_interaction` on an unknown session id: the lookup falls
back to a fresh `SessionData` (pure unfolding of the definition). -/
theorem update_from_interaction_eq_none (store : SessionStore)
    (session_id : List Char)
    (user_text assistant_text intent nav_goal summary : Option (List Char))
    (now : Nat) (h0 : dictGet store.state session_id = none) :
    update_from_interaction store session_id user_text assistant_text intent
        nav_goal summary now =
      (let sess0 := new_session session_id now
       let hist0 := sess0.history ++ turnsOf Role.user user_text now ++
          turnsOf Role.assistant assistant_text now
       let sess1 : SessionData :=
         { sess0 with
           last_seen := now
           last_intent := match intent with
             | some i => some i
             | none => sess0.last_intent
           last_nav_goal := match nav_goal with
             | some g => some g
             | none => sess0.last_nav_goal
           summary := match summary with
             | some s => some s
             | none => sess0.summary
           history := if hist0.length > store.max_history_turns then
               pySliceLast store.max_history_turns hist0
             else hist0 }
       ({ store with
          state := dictSet store.state session_id sess1
          file := if store.auto_persist then dictSet store.state session_id sess1
            else store.file },
        sess1)) := by
  unfold update_from_interaction
  rw [h0]

/-- C8: updating a session appends the provided user/assistant turns with
the current timestamp, refreshes `last_seen`, updates the last intent and
goal when provided, and truncates the history to at most the (positive)
configured cap by dropping the oldest entries first: the stored history is
a suffix of the appended history, is unchanged when it fits, and after
persisting and reloading the store the same truncated session is found.
`sess0` names the prior session state — or a fresh record for an unknown
id, exactly as `get_or_create_session` supplies it. -/
theorem session_update_roundtrip (store : SessionStore) (session_id : List Char)
    (user_text assistant_text intent nav_goal summary : Option (List Char))
    (now : Nat) (sess0 : SessionData)
    (hp : store.auto_persist = true)
    (hcap : 1 ≤ store.max_history_turns)
    (hD : (dictGet store.state session_id).getD (new_session session_id now) =
      sess0) :
    dictGet (reload_store (update_from_interaction store session_id user_text
          assistant_text intent nav_goal summary now).1).state session_id =
        some (update_from_interaction store session_id user_text assistant_text
          intent nav_goal summary now).2 ∧
      (update_from_interaction store session_id user_text assistant_text intent
          nav_goal summary now).2.history.length ≤ store.max_history_turns ∧
      (update_from_interaction store session_id user_text assistant_text intent
          nav_goal summary now).2.history <:+
        (sess0.history ++ turnsOf Role.user user_text now ++
          turnsOf Role.assistant assistant_text now) ∧
      ((sess0.history ++ turnsOf Role.user user_text now ++
          turnsOf Role.assistant assistant_text now).length ≤
          store.max_history_turns →
        (update_from_interaction store session_id user_text assistant_text
            intent nav_goal summary now).2.history =
          sess0.history ++ turnsOf Role.user user_text now ++
            turnsOf Role.assistant assistant_text now) ∧
      (update_from_interaction store session_id user_text assistant_text intent
          nav_goal summary now).2.last_seen = now ∧
      (∀ i, intent = some i →
        (update_from_interaction store session_id user_text assistant_text
            intent nav_goal summary now).2.last_intent = some i) ∧
      (∀ g, nav_goal = some g →
        (update_from_interaction store session_id user_text assistant_text
            intent nav_goal summary now).2.last_nav_goal = some g) := by
  rcases hDG : dictGet store.state session_id with _ | s
  · rw [hDG, Option.getD_none] at hD
    subst hD
    rw [update_from_interaction_eq_none store session_id user_text
      assistant_text intent nav_goal summary now hDG]
    refine ⟨?_, ?_, ?_, ?_, rfl, ?_, ?_⟩
    · simp only [reload_store, hp, if_true]
      exact dictGet_dictSet_same _ _ _
    · simp only
      split_ifs with hover
      · rw [pySliceLast_length _ _ hcap (by omega)]
      · omega
    · simp only
      split_ifs
      · exact pySliceLast_suffix _ _
      · exact List.suffix_refl _
    · intro hfit
      simp only
      rw [if_neg (by omega)]
    · intro i hi
      simp only [hi]
    · intro g hg
      simp only [hg]
  · rw [hDG, Option.getD_some] at hD
    subst hD
    rw [update_from_interaction_eq store session_id user_text assistant_text
      intent nav_goal summary now s hDG]
    refine ⟨?_, ?_, ?_, ?_, rfl, ?_, ?_⟩
    · simp only [reload_store, hp, if_true]
      exact dictGet_dictSet_same _ _ _
    · simp only
      split_ifs with hover
      · rw [pySliceLast_length _ _ hcap (by omega)]
      · omega
    · simp only
      split_ifs
      · exact pySliceLast_suffix _ _
      · exact List.suffix_refl _
    · intro hfit
      simp only
      rw [if_neg (by omega)]
    · intro i hi
      simp only [hi]
    · intro g hg
      simp only [hg]

/-- The concrete session used by the C8 witness: one prior user turn. -/
def sampleSessC8 : SessionData :=
  ⟨"s1".toList, 5, 5, some "CHATBOT".toList, none,
   [⟨Role.user, "hi".toList, 5⟩], none⟩

/-- The concrete store used by the C8 witness: cap 2, auto-persist on. -/
def sampleStoreC8 : SessionStore :=
  ⟨2, true, [("s1".toList, sampleSessC8)], [("s1".toList, sampleSessC8)]⟩

/-- Witness for C8: a two-turn-cap store holding one old turn receives a
user and an assistant turn; reloading from the persisted snapshot yields
the updated session, whose history holds at most the two newest turns. -/
theorem session_update_roundtrip_witness :
    dictGet (reload_store (update_from_interaction sampleStoreC8 "s1".toList
          (some "stop please".toList)
          (some "Okay, I stop here and wait.".toList) (some "STOP".toList)
          none none 9).1).state "s1".toList =
        some (update_from_interaction sampleStoreC8 "s1".toList
          (some "stop please".toList)
          (some "Okay, I stop here and wait.".toList) (some "STOP".toList)
          none none 9).2 ∧
      (update_from_interaction sampleStoreC8 "s1".toList
          (some "stop please".toList)
          (some "Okay, I stop here and wait.".toList) (some "STOP".toList)
          none none 9).2.history.length ≤ sampleStoreC8.max_history_turns :=
  ⟨(session_update_roundtrip sampleStoreC8 "s1".toList
      (some "stop please".toList) (some "Okay, I stop here and wait.".toList)
      (some "STOP".toList) none none 9 sampleSessC8 rfl (by decide) rfl).1,
   (session_update_roundtrip sampleStoreC8 "s1".toList
      (some "stop please".toList) (some "Okay, I stop here and wait.".toList)
      (some "STOP".toList) none none 9 sampleSessC8 rfl (by decide) rfl).2.1⟩

/-- A non-empty suffix shares the last element of the full list. -/
theorem getLast?_of_suffix {l' l : List SessionTurn} (h : l' <:+ l)
    (hne : l' ≠ []) : l'.getLast? = l.getLast? := by
  obtain ⟨pre, rfl⟩ := h
  exact (List.getLast?_append_of_ne_nil pre hne).symm

/-- C10: passing `None` for `nav_goal` (or `intent`) to
`update_from_interaction` leaves the stored `last_nav_goal` (resp.
`last_intent`) unchanged — a turn that carries no navigation goal does not
clear the goal remembered from an earlier turn — while the other updated
fields still change: `last_seen` becomes the current time and the history
now ends with the freshly appended assistant turn. -/
theorem session_update_frame (store : SessionStore) (session_id : List Char)
    (u a : List Char) (i g : List Char) (now : Nat) (sess0 : SessionData)
    (h0 : dictGet store.state session_id = some sess0)
    (hcap : 1 ≤ store.max_history_turns) :
    (update_from_interaction store session_id (some u) (some a) (some i) none
        none now).2.last_nav_goal = sess0.last_nav_goal ∧
      (update_from_interaction store session_id (some u) (some a) none (some g)
          none now).2.last_intent = sess0.last_intent ∧
      (update_from_interaction store session_id (some u) (some a) (some i) none
          none now).2.last_seen = now ∧
      (update_from_interaction store session_id (some u) (some a) (some i) none
          none now).2.history.getLast? =
        some ⟨Role.assistant, a, now⟩ := by
  rw [update_from_interaction_eq store session_id (some u) (some a) (some i)
    none none now sess0 h0,
    update_from_interaction_eq store session_id (some u) (some a) none (some g)
    none now sess0 h0]
  refine ⟨rfl, rfl, rfl, ?_⟩
  simp only
  have hlast : (sess0.history ++ turnsOf Role.user (some u) now ++
      turnsOf Role.assistant (some a) now).getLast? =
      some ⟨Role.assistant, a, now⟩ := by
    rw [List.getLast?_append_of_ne_nil _ (by simp [turnsOf])]
    rfl
  split_ifs with hover
  · rw [getLast?_of_suffix (pySliceLast_suffix _ _) ?hne]
    · exact hlast
    case hne =>
      intro hnil
      have := pySliceLast_length store.max_history_turns
        (sess0.history ++ turnsOf Role.user (some u) now ++
          turnsOf Role.assistant (some a) now) hcap (by omega)
      rw [hnil] at this
      simp at this
      omega
  · exact hlast

/-- The concrete session used by the C10 witness: remembers goal A201. -/
def sampleSessC10 : SessionData :=
  ⟨"s2".toList, 3, 3, some "NAVIGATE".toList, some "A201".toList, [], none⟩

/-- The concrete store used by the C10 witness. -/
def sampleStoreC10 : SessionStore :=
  ⟨8, true, [("s2".toList, sampleSessC10)], [("s2".toList, sampleSessC10)]⟩

/-- Witness for C10: an update carrying no nav goal keeps the previously
remembered goal `A201` while still refreshing `last_seen`. -/
theorem session_update_frame_witness :
    (update_from_interaction sampleStoreC10 "s2".toList (some "thanks".toList)
        (some "You are welcome.".toList) (some "CHATBOT".toList) none
        none 11).2.last_nav_goal = some "A201".toList ∧
      (update_from_interaction sampleStoreC10 "s2".toList (some "thanks".toList)
          (some "You are welcome.".toList) (some "CHATBOT".toList) none
          none 11).2.last_seen = 11 :=
  ⟨(session_update_frame sampleStoreC10 "s2".toList "thanks".toList
      "You are welcome.".toList "CHATBOT".toList "x".toList 11
      sampleSessC10 rfl (by decide)).1,
   (session_update_frame sampleStoreC10 "s2".toList "thanks".toList
      "You are welcome.".toList "CHATBOT".toList "x".toList 11
      sampleSessC10 rfl (by decide)).2.2.1⟩
